import Mathlib

/-!
Verification of the minimal ASGI greeting responder in
`src/inboard/app/main_base.py`.

The responder is the class `App`.  Its constructor asserts that the request
scope declares an HTTP transport and stores the scope; its `__call__` method
sends a response-start record, reads the `PROCESS_MANAGER` environment
variable, raises `NameError` on an unrecognized value, and otherwise sends
and returns a response-body record holding a greeting string.

The embedding below is a direct translation: Python dicts used as ASGI
messages become the record `Msg` (absent keys are `none`); the byte strings
produced by `str.encode("utf-8")` become `List Nat` via an explicit UTF-8
encoder; the environment variable becomes an `Option String` passed to the
call (mirroring `os.getenv` being evaluated inside `__call__`); the `send`
channel becomes the ordered list of messages sent before the call finishes
or raises; raising becomes `Except.error`.
-/

namespace Inboard

/-- Python exceptions the responder can raise: the `NameError` raised on an
invalid `PROCESS_MANAGER`, and the `AssertionError` from the failed
`assert` in `App.__init__`. -/
inductive PyErr where
  | nameError (msg : String)
  | assertionError
deriving DecidableEq, Repr

/-- UTF-8 encoding of a single character, as the list of its byte values
(what `str.encode("utf-8")` produces per code point). -/
def utf8Char (c : Char) : List Nat :=
  let n := c.toNat
  if n < 0x80 then [n]
  else if n < 0x800 then
    [0xC0 + n / 0x40, 0x80 + n % 0x40]
  else if n < 0x10000 then
    [0xE0 + n / 0x1000, 0x80 + n / 0x40 % 0x40, 0x80 + n % 0x40]
  else
    [0xF0 + n / 0x40000, 0x80 + n / 0x1000 % 0x40,
     0x80 + n / 0x40 % 0x40, 0x80 + n % 0x40]

/-- UTF-8 encoding of a string, as its list of byte values: the model of
`message.encode("utf-8")` and of the `b"..."` literals. -/
def utf8Encode (s : String) : List Nat :=
  s.data.flatMap utf8Char

/-- An ASGI message dict.  The source builds two shapes of dict:
`{"type": ..., "status": ..., "headers": ...}` for the response start and
`{"type": ..., "body": ...}` for the response body; keys a dict does not
carry are modelled as `none`.  Headers are pairs of byte strings, matching
`[[b"content-type", b"text/plain"]]`. -/
structure Msg where
  type : String
  status : Option Nat := none
  headers : Option (List (List Nat × List Nat)) := none
  body : Option (List Nat) := none
deriving DecidableEq, Repr

/-- A request scope: the `type` key that `App.__init__` inspects, plus the
other fields an HTTP scope carries (none of which the source reads). -/
structure Scope where
  type : String
  path : String
  method : String
  headers : List (List Nat × List Nat)
  extra : List (String × String)
deriving DecidableEq, Repr

/-- The responder instance: `App.__init__` stores the scope as
`self.scope`. -/
structure App where
  scope : Scope
deriving DecidableEq, Repr

/-- `App.__init__`: `assert scope["type"] == "http"`, then store the scope.
A failed `assert` raises `AssertionError`. -/
def App.init (scope : Scope) : Except PyErr App :=
  if scope.type = "http" then .ok ⟨scope⟩ else .error .assertionError

/-- The version string `f"{major}.{minor}.{micro}"` built from
`sys.version_info`. -/
def versionString (major minor micro : Nat) : String :=
  toString major ++ "." ++ toString minor ++ "." ++ toString micro

/-- The response-start dict sent first by `App.__call__`. -/
def startMsg : Msg :=
  { type := "http.response.start"
    status := some 200
    headers := some [(utf8Encode "content-type", utf8Encode "text/plain")] }

/-- `App.__call__`: `env` is the value of the `PROCESS_MANAGER` environment
variable at the time of this invocation (`none` when unset), and `major`,
`minor`, `micro` are the components of `sys.version_info`.  Returns the
ordered list of messages passed to `send` before the call finished or
raised, paired with the outcome: the returned dict, or the raised
exception. -/
def App.call (_self : App) (env : Option String) (major minor micro : Nat) :
    List Msg × Except PyErr Msg :=
  let version := versionString major minor micro
  let process_manager := env.getD "gunicorn"
  if process_manager ∉ (["gunicorn", "uvicorn"] : List String) then
    ([startMsg],
     .error (.nameError "Process manager needs to be either uvicorn or gunicorn."))
  else
    let server :=
      if process_manager = "uvicorn" then "Uvicorn" else "Uvicorn, Gunicorn,"
    let message := "Hello World, from " ++ server ++ " and Python " ++ version ++ "!"
    let response : Msg :=
      { type := "http.response.body", body := some (utf8Encode message) }
    ([startMsg, response], .ok response)

/-- Claim C1: with `PROCESS_MANAGER` set to `"uvicorn"`, the response body
sent (and returned) is exactly the UTF-8 encoding of
`"Hello World, from Uvicorn and Python {major}.{minor}.{micro}!"`. -/
theorem uvicorn_body (a : App) (major minor micro : Nat) :
    (a.call (some "uvicorn") major minor micro).2 =
      .ok { type := "http.response.body"
            body := some (utf8Encode
              ("Hello World, from Uvicorn and Python " ++
                versionString major minor micro ++ "!")) } :=
  rfl

/-- Claim C2: with `PROCESS_MANAGER` set to `"gunicorn"` or unset, the
response body sent is exactly the UTF-8 encoding of
`"Hello World, from Uvicorn, Gunicorn, and Python {major}.{minor}.{micro}!"`,
trailing comma of the label included. -/
theorem gunicorn_or_unset_body (a : App) (major minor micro : Nat) :
    (a.call (some "gunicorn") major minor micro).2 =
      .ok { type := "http.response.body"
            body := some (utf8Encode
              ("Hello World, from Uvicorn, Gunicorn, and Python " ++
                versionString major minor micro ++ "!")) } ∧
    (a.call none major minor micro).2 =
      .ok { type := "http.response.body"
            body := some (utf8Encode
              ("Hello World, from Uvicorn, Gunicorn, and Python " ++
                versionString major minor micro ++ "!")) } :=
  ⟨rfl, rfl⟩

/-- Claim C3: with `PROCESS_MANAGER` set to a value that is neither
`"gunicorn"` nor `"uvicorn"`, the call raises
`NameError("Process manager needs to be either uvicorn or gunicorn.")` and
no response-body message is ever sent. -/
theorem invalid_process_manager_raises (a : App) (v : String)
    (hg : v ≠ "gunicorn") (hu : v ≠ "uvicorn") (major minor micro : Nat) :
    (a.call (some v) major minor micro).2 =
      .error (.nameError
        "Process manager needs to be either uvicorn or gunicorn.") ∧
    ∀ m ∈ (a.call (some v) major minor micro).1, m.type ≠ "http.response.body" := by
  constructor
  · simp [App.call, hg, hu]
  · intro m hm
    simp [App.call, hg, hu] at hm
    subst hm
    decide

/-- Witness for `invalid_process_manager_raises` at the concrete value
`"incorrect"` used by the repository's test suite. -/
theorem invalid_process_manager_raises_witness :
    ((App.mk ⟨"http", "/", "GET", [], []⟩).call (some "incorrect") 3 11 4).2 =
      .error (.nameError
        "Process manager needs to be either uvicorn or gunicorn.") ∧
    ∀ m ∈ ((App.mk ⟨"http", "/", "GET", [], []⟩).call (some "incorrect") 3 11 4).1,
      m.type ≠ "http.response.body" :=
  invalid_process_manager_raises (App.mk ⟨"http", "/", "GET", [], []⟩)
    "incorrect" (by decide) (by decide) 3 11 4

/-- Claim C4: for `PROCESS_MANAGER` unset, `"gunicorn"`, or `"uvicorn"`,
exactly two messages are sent, in order: a `"http.response.start"` record
with status 200 and the single header pair `content-type: text/plain`, then
a `"http.response.body"` record carrying the UTF-8 encoded greeting. -/
theorem two_messages_sent (a : App) (major minor micro : Nat) :
    (a.call none major minor micro).1 =
      [{ type := "http.response.start", status := some 200
         headers := some [(utf8Encode "content-type", utf8Encode "text/plain")] },
       { type := "http.response.body"
         body := some (utf8Encode
           ("Hello World, from Uvicorn, Gunicorn, and Python " ++
             versionString major minor micro ++ "!")) }] ∧
    (a.call (some "gunicorn") major minor micro).1 =
      [{ type := "http.response.start", status := some 200
         headers := some [(utf8Encode "content-type", utf8Encode "text/plain")] },
       { type := "http.response.body"
         body := some (utf8Encode
           ("Hello World, from Uvicorn, Gunicorn, and Python " ++
             versionString major minor micro ++ "!")) }] ∧
    (a.call (some "uvicorn") major minor micro).1 =
      [{ type := "http.response.start", status := some 200
         headers := some [(utf8Encode "content-type", utf8Encode "text/plain")] },
       { type := "http.response.body"
         body := some (utf8Encode
           ("Hello World, from Uvicorn and Python " ++
             versionString major minor micro ++ "!")) }] :=
  ⟨rfl, rfl, rfl⟩

/-- Claim C5: in the invalid-configuration case the `NameError` is raised
only after the response-start record has gone out: the sent-message list of
the erroring run is exactly the one start record with status 200. -/
theorem error_after_start_sent (a : App) (v : String)
    (hg : v ≠ "gunicorn") (hu : v ≠ "uvicorn") (major minor micro : Nat) :
    (a.call (some v) major minor micro).1 =
      [{ type := "http.response.start", status := some 200
         headers := some [(utf8Encode "content-type", utf8Encode "text/plain")] }] ∧
    (a.call (some v) major minor micro).2.isOk = false := by
  simp [App.call, hg, hu, startMsg, Except.isOk, Except.toBool]

/-- Witness for `error_after_start_sent` at the concrete value
`"supervisord"`. -/
theorem error_after_start_sent_witness :
    ((App.mk ⟨"http", "/", "GET", [], []⟩).call (some "supervisord") 3 11 4).1 =
      [{ type := "http.response.start", status := some 200
         headers := some [(utf8Encode "content-type", utf8Encode "text/plain")] }] ∧
    ((App.mk ⟨"http", "/", "GET", [], []⟩).call (some "supervisord") 3 11 4).2.isOk
      = false :=
  error_after_start_sent (App.mk ⟨"http", "/", "GET", [], []⟩)
    "supervisord" (by decide) (by decide) 3 11 4

/-- UTF-8 encoding distributes over string concatenation. -/
theorem utf8Encode_append (s t : String) :
    utf8Encode (s ++ t) = utf8Encode s ++ utf8Encode t := by
  simp [utf8Encode, String.data_append]

/-- Claim C6: constructing the responder fails with an assertion failure
exactly when the scope's transport kind is not `"http"`; for every scope
with transport kind `"http"` construction succeeds and stores the scope
unchanged, whatever its other fields hold. -/
theorem init_requires_http_scope :
    (∀ s : Scope, s.type = "http" → App.init s = .ok ⟨s⟩) ∧
    (∀ s : Scope, s.type ≠ "http" → App.init s = .error .assertionError) := by
  constructor
  · intro s h
    simp [App.init, h]
  · intro s h
    simp [App.init, h]

/-- Witness for `init_requires_http_scope`: an HTTP scope with arbitrary
other fields is accepted, a websocket scope is rejected. -/
theorem init_requires_http_scope_witness :
    App.init ⟨"http", "/health", "POST", [(utf8Encode "host", utf8Encode "x")],
        [("k", "v")]⟩ =
      .ok ⟨⟨"http", "/health", "POST", [(utf8Encode "host", utf8Encode "x")],
        [("k", "v")]⟩⟩ ∧
    App.init ⟨"websocket", "/", "GET", [], []⟩ = .error .assertionError :=
  ⟨init_requires_http_scope.1 _ rfl, init_requires_http_scope.2 _ (by decide)⟩

/-- Claim C7: the `PROCESS_MANAGER` value is read at each invocation, not
captured at construction: for one and the same responder instance, an
invocation under `"uvicorn"` and an invocation under `"gunicorn"` each
yield the greeting of the value current at that invocation, and the two
outcomes differ. -/
theorem env_read_per_invocation (a : App) (major minor micro : Nat) :
    (a.call (some "uvicorn") major minor micro).2 =
      .ok { type := "http.response.body"
            body := some (utf8Encode
              ("Hello World, from Uvicorn and Python " ++
                versionString major minor micro ++ "!")) } ∧
    (a.call (some "gunicorn") major minor micro).2 =
      .ok { type := "http.response.body"
            body := some (utf8Encode
              ("Hello World, from Uvicorn, Gunicorn, and Python " ++
                versionString major minor micro ++ "!")) } ∧
    (a.call (some "uvicorn") major minor micro).2 ≠
      (a.call (some "gunicorn") major minor micro).2 := by
  refine ⟨rfl, rfl, fun h => ?_⟩
  have h1 : (a.call (some "uvicorn") major minor micro).2 =
      Except.ok { type := "http.response.body"
                  body := some (utf8Encode
                    ("Hello World, from Uvicorn and Python " ++
                      versionString major minor micro ++ "!")) } := rfl
  have h2 : (a.call (some "gunicorn") major minor micro).2 =
      Except.ok { type := "http.response.body"
                  body := some (utf8Encode
                    ("Hello World, from Uvicorn, Gunicorn, and Python " ++
                      versionString major minor micro ++ "!")) } := rfl
  rw [h1, h2] at h
  injection h with h
  have hb := congrArg Msg.body h
  simp only [Option.some.injEq] at hb
  have hl := congrArg List.length hb
  rw [utf8Encode_append, utf8Encode_append, utf8Encode_append,
    utf8Encode_append] at hl
  simp only [List.length_append] at hl
  have h37 : (utf8Encode "Hello World, from Uvicorn and Python ").length = 37 := by
    decide
  have h48 : (utf8Encode
      "Hello World, from Uvicorn, Gunicorn, and Python ").length = 48 := by
    decide
  omega

/-- Claim C8: two responders built from any two HTTP scopes — differing in
path, method, headers or any other field — produce identical output for the
same environment and interpreter version: the scope never influences the
messages. -/
theorem scope_independence (s t : Scope)
    (_hs : s.type = "http") (_ht : t.type = "http") (a b : App)
    (_ha : App.init s = .ok a) (_hb : App.init t = .ok b)
    (env : Option String) (major minor micro : Nat) :
    a.call env major minor micro = b.call env major minor micro :=
  rfl

/-- Witness for `scope_independence`: two scopes differing in path, method,
headers and extra fields give the same output. -/
theorem scope_independence_witness :
    (App.mk ⟨"http", "/", "GET", [], []⟩).call none 3 11 4 =
      (App.mk ⟨"http", "/health", "POST",
        [(utf8Encode "host", utf8Encode "x")], [("k", "v")]⟩).call none 3 11 4 :=
  scope_independence ⟨"http", "/", "GET", [], []⟩
    ⟨"http", "/health", "POST", [(utf8Encode "host", utf8Encode "x")], [("k", "v")]⟩
    rfl rfl _ _ rfl rfl none 3 11 4

/-- Claim C9: whenever the call succeeds, the value it returns is the
response-body record, and it equals the last message sent. -/
theorem returns_last_sent (a : App) (env : Option String)
    (major minor micro : Nat) (r : Msg)
    (h : (a.call env major minor micro).2 = .ok r) :
    r.type = "http.response.body" ∧
    (a.call env major minor micro).1.getLast? = some r := by
  rcases env with _ | v
  · injection h with h
    subst h
    exact ⟨rfl, rfl⟩
  · by_cases hv : v ∈ (["gunicorn", "uvicorn"] : List String)
    · simp only [List.mem_cons, List.mem_singleton, List.not_mem_nil] at hv
      rcases hv with rfl | rfl | hv
      · injection h with h
        subst h
        exact ⟨rfl, rfl⟩
      · injection h with h
        subst h
        exact ⟨rfl, rfl⟩
      · exact absurd hv (by simp)
    · exfalso
      simp [App.call, hv] at h

/-- Witness for `returns_last_sent` with the environment unset. -/
theorem returns_last_sent_witness :
    ({ type := "http.response.body"
       body := some (utf8Encode
         ("Hello World, from Uvicorn, Gunicorn, and Python " ++
           versionString 3 11 4 ++ "!")) } : Msg).type = "http.response.body" ∧
    ((App.mk ⟨"http", "/", "GET", [], []⟩).call none 3 11 4).1.getLast? =
      some { type := "http.response.body"
             body := some (utf8Encode
               ("Hello World, from Uvicorn, Gunicorn, and Python " ++
                 versionString 3 11 4 ++ "!")) } :=
  returns_last_sent (App.mk ⟨"http", "/", "GET", [], []⟩) none 3 11 4
    { type := "http.response.body"
      body := some (utf8Encode
        ("Hello World, from Uvicorn, Gunicorn, and Python " ++
          versionString 3 11 4 ++ "!")) } rfl

/-- Claim C10: a `PROCESS_MANAGER` that is present but empty is rejected
with the configuration error; the `"gunicorn"` default applies only when
the variable is entirely absent. -/
theorem empty_string_invalid (a : App) (major minor micro : Nat) :
    (a.call (some "") major minor micro).2 =
      .error (.nameError
        "Process manager needs to be either uvicorn or gunicorn.") ∧
    (a.call none major minor micro).2 =
      .ok { type := "http.response.body"
            body := some (utf8Encode
              ("Hello World, from Uvicorn, Gunicorn, and Python " ++
                versionString major minor micro ++ "!")) } :=
  ⟨rfl, rfl⟩

end Inboard
